import Mathlib

/-!
Verification development for the session lifecycle manager of a
multi-tenant WhatsApp REST facade (src/src/sessions.ts, src/src/utils.ts,
src/src/config.ts).  The TypeScript code is shallowly embedded: the
in-memory `sessions` Map becomes an association list, the driver client
becomes a record carrying the observable behaviour of its driver calls,
the credential directory tree becomes a list of directory names, and
asynchronous driver calls become explicit outcome values.  Time (bounded
polls, timeouts) has no observable effect on the state modelled here and
is noted in comments where the source performs such waits.
-/

namespace WA

/-- The distinguished connection state string the source compares against
(`state === "CONNECTED"` in validateSession, with WAState literals written here in backticks).  WAState values are strings
in the driver library, so connection states are modelled as `String`. -/
def connectedState : String := "CONNECTED"

/-- Embedding of the `ValidationResult` interface of sessions.ts:
`{ success: boolean; message: string; state: WAState | null }`
(the optional `client` field is never read by the modelled code). -/
structure ValidationResult where
  success : Bool
  message : String
  state : Option String
deriving DecidableEq, Repr

/-- A puppeteer page handle as observed by sessions.ts: the only query the
modelled code performs on it is `isClosed()`. -/
structure Page where
  isClosed : Bool
deriving DecidableEq, Repr

/-- Outcome of `client.getState()`: either it resolves with a state string,
or it rejects; `msg` is the message the catch block of validateSession
extracts (`error.message` for an Error, the `Unknown error` fallback otherwise). -/
inductive GetStateOutcome where
  | ok (state : String)
  | throws (msg : String)
deriving DecidableEq, Repr

/-- Outcome of an awaited driver teardown call (`client.logout()` /
`client.destroy()`): resolves, or rejects with an error message. -/
inductive CallOutcome where
  | ok
  | throws (msg : String)
deriving DecidableEq, Repr

/-- Embedding of a `whatsapp-web.js` `Client` handle as observed by
sessions.ts.  `handle` is the identity of the handle object (used to state
that two handles are distinct); `pupPage` is the internal browser page,
`none` meaning it has not materialised (so `waitForNestedObject` on `pupPage` times out).  The remaining fields record the behaviour of the
driver calls the modelled code awaits on this client. -/
structure Client where
  handle : Nat
  pupPage : Option Page
  getState : GetStateOutcome
  logoutOutcome : CallOutcome
  destroyOutcome : CallOutcome
deriving DecidableEq, Repr

/-- The Registry: embedding of `const sessions: Map<string, Client>`.
Later insertions are consed at the head, so lookup finds the most recent
binding for a key, matching Map semantics. -/
abbrev Registry := List (String × Client)

/-- Embedding of `sessions.get(id)` (combined with the `sessions.has(id)`
check: a Map holds at most one binding per key). -/
def lookupEntry (reg : Registry) (id : String) : Option Client :=
  match reg with
  | [] => none
  | (k, c) :: t => if k = id then some c else lookupEntry t id

/-- Embedding of `sessions.delete(id)`: removes the binding for `id`. -/
def eraseEntry (reg : Registry) (id : String) : Registry :=
  match reg with
  | [] => []
  | (k, c) :: t => if k = id then eraseEntry t id else (k, c) :: eraseEntry t id

/-- The directory name `session-<id>` used throughout sessions.ts
(LocalAuth persists under `sessionFolderPath/session-<clientId>`, and
deleteSessionFolder joins `sessionFolderPath` with this name). -/
def dirName (id : String) : String := "session-" ++ id

/-- Body of the `try` block of `validateSession` (sessions.ts lines
102-114), given the client found in the Registry: awaits the page handle,
checks for a closed tab, then queries the connection state.  A thrown
error is an `Except.error` carrying the message the catch block would
extract. -/
def validateSessionTry (client : Client) : Except String ValidationResult :=
  match client.pupPage with
  | none => Except.error "Timeout waiting for nested object"
  | some page =>
    if page.isClosed then
      Except.ok ⟨false, "browser tab closed", none⟩
    else
      match client.getState with
      | GetStateOutcome.throws msg => Except.error msg
      | GetStateOutcome.ok s =>
        if s = connectedState then
          Except.ok ⟨true, "session_connected", some connectedState⟩
        else
          Except.ok ⟨false, "session_not_connected", some s⟩

/-- Validation of a client handle: the registry-miss check of
`validateSession` followed by its try/catch (sessions.ts lines 95-122).
The catch converts any rejection into a failure result, so the function
is total: validate never throws. -/
def validateClient (entry : Option Client) : ValidationResult :=
  match entry with
  | none => ⟨false, "session_not_found", none⟩
  | some client =>
    match validateSessionTry client with
    | Except.ok r => r
    | Except.error msg => ⟨false, msg, none⟩

/-- Embedding of `validateSession(sessionId)` (sessions.ts lines 95-122). -/
def validateSession (reg : Registry) (sessionId : String) : ValidationResult :=
  validateClient (lookupEntry reg sessionId)

/-- The client object produced by `new Client(clientOptions)` in
setupSession: a fresh handle whose internal page has not yet materialised
(`client.initialize()` is fired asynchronously and has not run when
setupSession returns).  The driver-call outcome fields are unconstrained
by setupSession; defaults are chosen arbitrarily. -/
def freshClient (h : Nat) : Client :=
  ⟨h, none, GetStateOutcome.throws "page not ready", CallOutcome.ok, CallOutcome.ok⟩

/-- Result of `setupSession`: the returned `ValidationResult` plus the
updated Registry and fresh-handle counter (the counter models object
identity of `new Client(...)` allocations: every allocation yields a
handle distinct from all previously allocated ones). -/
structure SetupOutcome where
  result : ValidationResult
  registry : Registry
  nextHandle : Nat
deriving Repr

/-- Embedding of `setupSession(sessionId)` (sessions.ts lines 125-203).
If the id already has a Registry entry it returns a failure result and
changes nothing.  Otherwise it creates a fresh client, fires
`client.initialize()` asynchronously (its failure is only logged), wires
events, registers the client, and returns success with state CONNECTED
regardless of the actual connection state. -/
def setupSession (reg : Registry) (nextHandle : Nat) (sessionId : String) : SetupOutcome :=
  if (lookupEntry reg sessionId).isSome then
    ⟨⟨false, "Session already exists for: " ++ sessionId, none⟩, reg, nextHandle⟩
  else
    let client := freshClient nextHandle
    -- client.initialize() is launched fire-and-forget; initializeEvents
    -- attaches listeners (modelled separately below); sessions.set stores
    -- the client.  The key is absent, so Map.set is a plain insert.
    ⟨⟨true, "Session initiated successfully", some connectedState⟩,
      (sessionId, client) :: reg, nextHandle + 1⟩

/-- The driver teardown call deleteSession performed, if any. -/
inductive DriverCall where
  | logout
  | destroy
deriving DecidableEq, Repr

/-- Result of `deleteSession`: `err` is `some msg` when the promise
rejects (the outer catch logs and rethrows), plus the Registry, the
directory listing of the credential root, and the driver teardown calls
that were awaited. -/
structure DeleteOutcome where
  err : Option String
  registry : Registry
  fsDirs : List String
  calls : List DriverCall
deriving Repr

/-- Embedding of `deleteSession(sessionId, validation)` (sessions.ts lines
637-686).  Early-returns (without touching Registry or filesystem) when
the id has no Registry entry or the `pupPage` of the client is absent.
Otherwise it detaches the crash-recovery listeners, awaits `logout()` when
`validation.success`, awaits `destroy()` when `validation.message` equals
`session_not_connected` (and neither call otherwise), polls boundedly for
the browser to disconnect (no state effect modelled), then deletes the
credential directory and removes the Registry entry.  A rejection from the
driver call or the folder deletion propagates, leaving the remaining steps
undone.  Folder deletion is abstracted here to existence-checked removal
(realpath resolution and the traversal check are modelled in full by
`deleteSessionFolder` below); a missing directory makes `realpath` reject,
which the outer catch rethrows. -/
def deleteSession (reg : Registry) (fsDirs : List String) (sessionId : String)
    (validation : ValidationResult) : DeleteOutcome :=
  match lookupEntry reg sessionId with
  | none => ⟨none, reg, fsDirs, []⟩
  | some client =>
    match client.pupPage with
    | none => ⟨none, reg, fsDirs, []⟩
    | some _page =>
      -- pupPage.removeAllListeners for close and error: detaches the
      -- crash-recovery one-shot listeners; no state modelled here.
      let (callRes, calls) :=
        if validation.success then
          (client.logoutOutcome, [DriverCall.logout])
        else if validation.message = "session_not_connected" then
          (client.destroyOutcome, [DriverCall.destroy])
        else
          (CallOutcome.ok, [])
      match callRes with
      | CallOutcome.throws msg => ⟨some msg, reg, fsDirs, calls⟩
      | CallOutcome.ok =>
        -- bounded wait (~10 x 1s) for pupBrowser.isConnected() to turn
        -- false: time only, no observable state change.
        if fsDirs.contains (dirName sessionId) then
          ⟨none, eraseEntry reg sessionId,
            fsDirs.filter (fun d => d ≠ dirName sessionId), calls⟩
        else
          ⟨some "ENOENT", reg, fsDirs, calls⟩

/-- The characters of the literal directory-name marker matched by the
regex `/^session-(.+)$/` in restoreSessions and flushSessions. -/
def sessionTag : List Char := "session-".data

/-- Embedding of `file.match(/^session-(.+)$/)`: succeeds when the file
name starts with `session-` followed by at least one character, returning
the captured tenant id. -/
def parseSessionDir (file : String) : Option String :=
  if file.data.take 8 = sessionTag ∧ 8 < file.data.length then
    some (String.mk (file.data.drop 8))
  else
    none

/-- State threaded through the flushSessions loop: Registry, directory
listing of the credential root, and the log of ids deleteSession was
invoked for (terminate calls). -/
structure FlushState where
  registry : Registry
  fsDirs : List String
  termCalls : List String
deriving Repr

/-- One iteration of the flushSessions loop over a directory entry
(sessions.ts lines 700-722): on a regex match, validate the session and
call deleteSession unless `deleteOnlyInactive` holds and the validation
succeeded; a rejection from deleteSession is caught and logged, so the
loop continues with whatever state the failed call left behind. -/
def flushStep (deleteOnlyInactive : Bool) (st : FlushState) (file : String) : FlushState :=
  match parseSessionDir file with
  | none => st
  | some sessionId =>
    let validation := validateSession st.registry sessionId
    if ¬ deleteOnlyInactive ∨ ¬ validation.success then
      let d := deleteSession st.registry st.fsDirs sessionId validation
      ⟨d.registry, d.fsDirs, st.termCalls ++ [sessionId]⟩
    else
      st

/-- Embedding of `flushSessions(deleteOnlyInactive)` (sessions.ts lines
688-727): reads the credential root listing once (the model assumes the
root exists; when it does not, the source returns early with a warning),
then iterates `flushStep` over the snapshot. -/
def flushSessions (reg : Registry) (fsDirs : List String)
    (deleteOnlyInactive : Bool) : FlushState :=
  fsDirs.foldl (flushStep deleteOnlyInactive) ⟨reg, fsDirs, []⟩

/-- Boolean prefix test on strings, the model of JavaScript
`String.prototype.startsWith` used by deleteSessionFolder. -/
def strStartsWith (s p : String) : Bool :=
  p.data.isPrefixOf s.data

/-- `path.join(a, b)` for one segment; the path separator `path.sep` is
`/`.  Normalisation beyond joining is subsumed by the abstract `realpath`
resolver of `FsModel`. -/
def pathJoin (a b : String) : String := a ++ "/" ++ b

/-- Outcome of `fs.promises.unlink(filePath)` under the retry policy of
deleteSessionFolder (sessions.ts lines 566-576): the first attempt may
succeed, fail transiently (EPERM/EBUSY, which triggers one retry after a
delay) and then succeed or fail again, or fail with any other error, which
is rethrown immediately. -/
inductive UnlinkOutcome where
  | ok
  | retryOk
  | retryFail (msg : String)
  | fail (msg : String)
deriving DecidableEq, Repr

/-- The filesystem as observed by deleteSessionFolder: `realpath` resolves
a path to its real absolute path (`none` = rejection, e.g. ENOENT),
`dirFiles` lists a resolved directory, `unlink` gives the outcome of each
file deletion, and `rmdirErr` gives the rejection of the directory
removal, if any. -/
structure FsModel where
  realpath : String → Option String
  dirFiles : String → List String
  unlink : String → UnlinkOutcome
  rmdirErr : String → Option String

/-- Result of deleteSessionFolder: rejection message if any, the files
actually unlinked (in order), and the directory removed, if reached. -/
structure FolderDeleteResult where
  err : Option String
  deletedFiles : List String
  removedDir : Option String
deriving DecidableEq, Repr

/-- The file-deletion loop of deleteSessionFolder (sessions.ts lines
563-577): unlink each listed file, retrying once on a transient error;
an unresolved error aborts the loop and propagates. -/
def unlinkAll (fs : FsModel) (dir : String) : List String → Option String × List String
  | [] => (none, [])
  | f :: t =>
    let p := pathJoin dir f
    match fs.unlink p with
    | UnlinkOutcome.ok =>
      let r := unlinkAll fs dir t
      (r.1, p :: r.2)
    | UnlinkOutcome.retryOk =>
      let r := unlinkAll fs dir t
      (r.1, p :: r.2)
    | UnlinkOutcome.retryFail msg => (some msg, [])
    | UnlinkOutcome.fail msg => (some msg, [])

/-- Embedding of `deleteSessionFolder(sessionId)` (sessions.ts lines
548-585): resolves the target directory `session-<id>` and the credential
root to real paths, requires the target to start with the resolved root
plus a trailing separator (rejecting with a traversal error otherwise,
before any deletion), then unlinks every file and removes the directory. -/
def deleteSessionFolder (fs : FsModel) (sessionFolderPath sessionId : String) :
    FolderDeleteResult :=
  match fs.realpath (pathJoin sessionFolderPath (dirName sessionId)) with
  | none => ⟨some "realpath ENOENT", [], none⟩
  | some resolvedTargetDirPath =>
    match fs.realpath sessionFolderPath with
    | none => ⟨some "realpath ENOENT", [], none⟩
    | some resolvedSessionPath =>
      let safeSessionPath := resolvedSessionPath ++ "/"
      if strStartsWith resolvedTargetDirPath safeSessionPath then
        let u := unlinkAll fs resolvedTargetDirPath (fs.dirFiles resolvedTargetDirPath)
        match u.1 with
        | some msg => ⟨some msg, u.2, none⟩
        | none =>
          match fs.rmdirErr resolvedTargetDirPath with
          | some msg => ⟨some msg, u.2, none⟩
          | none => ⟨none, u.2, some resolvedTargetDirPath⟩
      else
        ⟨some "Invalid path: Directory traversal detected", [], none⟩

/-- Status of the promise returned by `checkIfEventisEnabled` (utils.ts
lines 43-45): the executor resolves when the event is not deny-listed and
otherwise does nothing, leaving the promise forever pending; no code path
rejects it. -/
inductive PromiseStatus where
  | resolved
  | rejected (msg : String)
  | pending
deriving DecidableEq, Repr

/-- Embedding of `checkIfEventisEnabled(event)` (utils.ts lines 43-45),
parameterised by the configured deny-list `disabledCallbacks`
(config.ts line 13). -/
def checkIfEventisEnabled (disabledCallbacks : List String) (event : String) :
    PromiseStatus :=
  if event ∈ disabledCallbacks then PromiseStatus.pending else PromiseStatus.resolved

/-- The driver event names whose listener attachment in `initializeEvents`
(sessions.ts lines 243-546) is guarded by `checkIfEventisEnabled(name)
.then(...)`: the listener is attached only once that promise resolves. -/
def gatedEvents : List String :=
  ["auth_failure", "authenticated", "call", "change_state", "disconnected",
   "group_join", "group_leave", "group_update", "loading_screen",
   "media_uploaded", "message", "message_ack", "message_create",
   "message_reaction", "message_edit", "message_ciphertext",
   "message_revoke_everyone", "message_revoke_me", "ready",
   "contact_changed", "chat_removed", "chat_archived", "unread_count"]

/-- Whether `initializeEvents` attaches a listener for a driver event,
given the deny-list in force at session start: the `qr` listener
(sessions.ts lines 472-489) is attached unconditionally, with the gate
consulted inside the handler; every other forwarded event is attached only
if its gate promise resolved at subscription time. -/
def listenerAttached (denyAtStart : List String) (event : String) : Bool :=
  if event = "qr" then
    true
  else if event ∈ gatedEvents then
    checkIfEventisEnabled denyAtStart event = PromiseStatus.resolved
  else
    false

/-- Whether an occurrence of a driver event results in a webhook dispatch
for a session whose webhook URL is configured: for `qr`, the attached
listener re-runs the gate check at occurrence time (against the deny-list
in force then); for every other event a dispatch happens exactly when the
listener was attached at start.  (In the running process the deny-list is
a constant read from the environment at startup, so `denyAtStart` and
`denyNow` coincide; they are separated here to express at which moment the
gate is consulted.) -/
def webhookDispatched (denyAtStart denyNow : List String) (event : String) : Bool :=
  if event = "qr" then
    checkIfEventisEnabled denyNow "qr" = PromiseStatus.resolved
  else
    listenerAttached denyAtStart event

/-- Number of invocations of the crash-recovery `restartSession` closure
(sessions.ts lines 213-232): when `recoverSessions` is set and the page
handle materialised, a one-shot listener is attached to the `close` signal
of the page and another to its `error` signal, each invoking `restartSession`
when its own signal fires; neither listener detaches the other. -/
def crashRestartCount (recoverSessions pageReady closeFired errorFired : Bool) : Nat :=
  if recoverSessions && pageReady then
    (if closeFired then 1 else 0) + (if errorFired then 1 else 0)
  else 0

/-- Embedding of the `restartSession` closure of `initializeEvents`
(sessions.ts lines 213-221): removes the Registry entry, destroys the old
client (errors logged only), and runs setupSession for the same id, which
allocates a fresh client handle. -/
def restartSession (reg : Registry) (nextHandle : Nat) (sessionId : String) :
    Registry × Nat :=
  let o := setupSession (eraseEntry reg sessionId) nextHandle sessionId
  (o.registry, o.nextHandle)

/-- `n` successive invocations of `restartSession` for the same id. -/
def applyRestarts (n : Nat) (reg : Registry) (nextHandle : Nat) (sessionId : String) :
    Registry × Nat :=
  match n with
  | 0 => (reg, nextHandle)
  | Nat.succ m =>
    let r := restartSession reg nextHandle sessionId
    applyRestarts m r.1 r.2 sessionId

end WA
namespace WA

theorem lookupEntry_eraseEntry_self (reg : Registry) (id : String) :
    lookupEntry (eraseEntry reg id) id = none := by
  induction reg with
  | nil => rfl
  | cons p t ih =>
    obtain ⟨k, c⟩ := p
    by_cases h : k = id
    · simpa [eraseEntry, h] using ih
    · simp [eraseEntry, lookupEntry, h, ih]

theorem lookupEntry_eraseEntry_ne (reg : Registry) (id k : String) (h : k ≠ id) :
    lookupEntry (eraseEntry reg id) k = lookupEntry reg k := by
  induction reg with
  | nil => rfl
  | cons p t ih =>
    obtain ⟨k1, c⟩ := p
    by_cases h1 : k1 = id
    · subst h1
      simp [eraseEntry, lookupEntry, Ne.symm h, ih]
    · by_cases h2 : k1 = k
      · subst h2
        simp [eraseEntry, lookupEntry, h1, ih]
      · simp [eraseEntry, lookupEntry, h1, h2, ih]

theorem dirName_inj {a b : String} (h : dirName a = dirName b) : a = b := by
  have hd := congrArg String.data h
  rw [dirName, dirName, String.data_append, String.data_append] at hd
  exact String.ext (List.append_cancel_left hd)

theorem parseSessionDir_eq_some {f id : String} (h : parseSessionDir f = some id) :
    f = dirName id := by
  unfold parseSessionDir at h
  split at h
  case isTrue hc =>
    injection h with h2
    apply String.ext
    have hdata : (dirName id).data = sessionTag ++ f.data.drop 8 := by
      rw [dirName, String.data_append, ← h2]
      rfl
    rw [hdata, ← hc.1, List.take_append_drop]
  case isFalse => cases h

theorem parseSessionDir_dirName {id : String} (h : id ≠ "") :
    parseSessionDir (dirName id) = some id := by
  have hdata : (dirName id).data = sessionTag ++ id.data := by
    rw [dirName, String.data_append]
    rfl
  have htag : sessionTag.length = 8 := by decide
  have hlen : 0 < id.data.length := by
    cases hd : id.data with
    | nil => exact absurd (String.ext hd) h
    | cons a t => simp
  have h1 : (dirName id).data.take 8 = sessionTag := by
    rw [hdata, ← htag, List.take_left]
  have h2 : 8 < (dirName id).data.length := by
    rw [hdata, List.length_append, htag]
    omega
  have h3 : (dirName id).data.drop 8 = id.data := by
    rw [hdata, ← htag, List.drop_left]
  unfold parseSessionDir
  rw [if_pos ⟨h1, h2⟩, h3]


/-- C3: if a tenant id already has a Registry entry, a second
`setupSession(id)` returns a failure result and leaves the Registry, the
next-handle counter (hence the set of allocated client handles), and the
existing entry unchanged: no new client is created. -/
theorem setupSession_existing_id_rejected (reg : Registry) (nh : Nat) (id : String)
    (h : (lookupEntry reg id).isSome = true) :
    (setupSession reg nh id).result =
      ⟨false, "Session already exists for: " ++ id, none⟩ ∧
    (setupSession reg nh id).registry = reg ∧
    (setupSession reg nh id).nextHandle = nh := by
  unfold setupSession
  simp [h]

/-- Witness for C3 at a concrete Registry holding one entry. -/
theorem setupSession_existing_id_rejected_witness :
    (lookupEntry [("a", freshClient 0)] "a").isSome = true ∧
    (setupSession [("a", freshClient 0)] 1 "a").registry = [("a", freshClient 0)] ∧
    (setupSession [("a", freshClient 0)] 1 "a").result.success = false := by
  refine ⟨by decide, (setupSession_existing_id_rejected [("a", freshClient 0)] 1 "a" (by decide)).2.1, ?_⟩
  rw [(setupSession_existing_id_rejected [("a", freshClient 0)] 1 "a" (by decide)).1]

/-- C10: for an id with no Registry entry, `setupSession` returns a
success result whose state field is the distinguished CONNECTED value,
while the client it just registered has no materialised page yet
(`initialize()` is fired asynchronously): the state field of the start
result does not reflect the actual connection state. -/
theorem setupSession_reports_connected_unconditionally (reg : Registry) (nh : Nat)
    (id : String) (h : lookupEntry reg id = none) :
    (setupSession reg nh id).result =
      ⟨true, "Session initiated successfully", some connectedState⟩ ∧
    lookupEntry (setupSession reg nh id).registry id = some (freshClient nh) ∧
    (freshClient nh).pupPage = none := by
  refine ⟨?_, ?_, rfl⟩ <;>
  · unfold setupSession
    simp [h, lookupEntry]

/-- Witness for C10 on the empty Registry. -/
theorem setupSession_reports_connected_unconditionally_witness :
    lookupEntry [] "4" = none ∧
    (setupSession [] 0 "4").result =
      ⟨true, "Session initiated successfully", some connectedState⟩ := by
  exact ⟨rfl, (setupSession_reports_connected_unconditionally [] 0 "4" rfl).1⟩

/-- C4: `validateSession` on an id with no Registry entry returns exactly
`{success: false, message: "session_not_found", state: null}`; and for a
registered client whose driver misbehaves (page never materialises, page
closed, `getState` rejects) it returns a failure result; in particular any
rejection of the try body is converted by the catch into a failure result,
so validate never throws (the embedding is a total function into
`ValidationResult`). -/
theorem validateSession_not_found_and_never_throws (reg : Registry) (id : String) :
    (lookupEntry reg id = none →
      validateSession reg id = ⟨false, "session_not_found", none⟩) ∧
    (∀ c, lookupEntry reg id = some c → c.pupPage = none →
      (validateSession reg id).success = false) ∧
    (∀ c p, lookupEntry reg id = some c → c.pupPage = some p → p.isClosed = true →
      (validateSession reg id).success = false) ∧
    (∀ c m, lookupEntry reg id = some c → c.getState = GetStateOutcome.throws m →
      (validateSession reg id).success = false) ∧
    (∀ c m, lookupEntry reg id = some c → validateSessionTry c = Except.error m →
      validateSession reg id = ⟨false, m, none⟩) := by
  refine ⟨?_, ?_, ?_, ?_, ?_⟩
  · intro h
    simp [validateSession, validateClient, h]
  · intro c hc hp
    simp [validateSession, validateClient, validateSessionTry, hc, hp]
  · intro c p hc hp hcl
    simp [validateSession, validateClient, validateSessionTry, hc, hp, hcl]
  · intro c m hc hg
    simp only [validateSession, validateClient, validateSessionTry, hc, hg]
    cases hp : c.pupPage with
    | none => simp
    | some p =>
      by_cases hcl : p.isClosed = true
      · simp [hp, hcl]
      · simp [hp, hcl, hg]
  · intro c m hc he
    simp [validateSession, validateClient, hc, he]

/-- Witness for C4: the not-found branch, a timed-out page, a closed tab,
and a rejecting `getState`, each at a concrete input. -/
theorem validateSession_not_found_and_never_throws_witness :
    validateSession [] "x" = ⟨false, "session_not_found", none⟩ ∧
    (validateSession [("x", ⟨0, none, GetStateOutcome.ok "CONNECTED", CallOutcome.ok, CallOutcome.ok⟩)] "x").success = false ∧
    (validateSession [("x", ⟨0, some ⟨true⟩, GetStateOutcome.ok "CONNECTED", CallOutcome.ok, CallOutcome.ok⟩)] "x").success = false ∧
    (validateSession [("x", ⟨0, some ⟨false⟩, GetStateOutcome.throws "boom", CallOutcome.ok, CallOutcome.ok⟩)] "x").success = false := by
  refine ⟨(validateSession_not_found_and_never_throws [] "x").1 rfl, ?_, ?_, ?_⟩
  · exact (validateSession_not_found_and_never_throws _ "x").2.1
      ⟨0, none, GetStateOutcome.ok "CONNECTED", CallOutcome.ok, CallOutcome.ok⟩ (by decide) rfl
  · exact (validateSession_not_found_and_never_throws _ "x").2.2.1
      ⟨0, some ⟨true⟩, GetStateOutcome.ok "CONNECTED", CallOutcome.ok, CallOutcome.ok⟩ ⟨true⟩ (by decide) rfl rfl
  · exact (validateSession_not_found_and_never_throws _ "x").2.2.2.1
      ⟨0, some ⟨false⟩, GetStateOutcome.throws "boom", CallOutcome.ok, CallOutcome.ok⟩ "boom" (by decide) rfl

/-- C9 counterexample: the gate promise is not always-resolving — for a
deny-listed event the executor never calls resolve, so the promise stays
pending forever. -/
theorem checkIfEventisEnabled_not_always_resolving :
    checkIfEventisEnabled ["qr"] "qr" = PromiseStatus.pending ∧
    checkIfEventisEnabled ["qr"] "qr" ≠ PromiseStatus.resolved := by
  decide

/-- C9 amended: the gate resolves (reporting enabled) exactly when the
event name does not appear in the configured deny-list, and it never
rejects; for a deny-listed event the promise never settles (so dependent
`.then` continuations simply never run). -/
theorem checkIfEventisEnabled_amended (disabledCallbacks : List String) (event : String) :
    (checkIfEventisEnabled disabledCallbacks event = PromiseStatus.resolved ↔
      event ∉ disabledCallbacks) ∧
    (∀ m, checkIfEventisEnabled disabledCallbacks event ≠ PromiseStatus.rejected m) := by
  unfold checkIfEventisEnabled
  by_cases h : event ∈ disabledCallbacks <;> simp [h]


/-- C6: whenever the resolved target path is not strictly inside the
resolved credential root (prefix comparison against the root with a
trailing separator appended), `deleteSessionFolder` rejects with the
traversal error and performs no file deletion and no directory removal. -/
theorem deleteSessionFolder_traversal_rejected (fs : FsModel)
    (sessionFolderPath sessionId rt rr : String)
    (h1 : fs.realpath (pathJoin sessionFolderPath (dirName sessionId)) = some rt)
    (h2 : fs.realpath sessionFolderPath = some rr)
    (h3 : strStartsWith rt (rr ++ "/") = false) :
    deleteSessionFolder fs sessionFolderPath sessionId =
      ⟨some "Invalid path: Directory traversal detected", [], none⟩ := by
  unfold deleteSessionFolder
  rw [h1, h2]
  simp [h3]

/-- A filesystem in which the tenant directory resolves (say through a
symlink) to a real path outside the credential root. -/
def traversalFs : FsModel :=
  ⟨fun s =>
      if s = pathJoin "/sessions" (dirName "x") then some "/etc/secret"
      else if s = "/sessions" then some "/sessions"
      else none,
   fun _ => ["creds.json"], fun _ => UnlinkOutcome.ok, fun _ => none⟩

/-- Witness for C6 on `traversalFs`. -/
theorem deleteSessionFolder_traversal_rejected_witness :
    strStartsWith "/etc/secret" ("/sessions" ++ "/") = false ∧
    deleteSessionFolder traversalFs "/sessions" "x" =
      ⟨some "Invalid path: Directory traversal detected", [], none⟩ :=
  ⟨by decide,
   deleteSessionFolder_traversal_rejected traversalFs "/sessions" "x" "/etc/secret" "/sessions"
     (by decide) (by decide) (by decide)⟩

/-- C5 counterexample: a Registry entry whose validation reported a
non-connected outcome other than `session_not_connected` (here the
`browser tab closed` failure): `deleteSession` performs no driver
teardown call at all — in particular it does not invoke destroy. -/
theorem deleteSession_tab_closed_no_driver_call :
    (deleteSession
        [("x", ⟨0, some ⟨false⟩, GetStateOutcome.ok "OPENING", CallOutcome.ok, CallOutcome.ok⟩)]
        [dirName "x"] "x" ⟨false, "browser tab closed", none⟩).calls = [] := by
  decide

/-- C5 amended: for an id whose Registry entry has a materialised page,
`deleteSession` awaits `logout()` when the validation succeeded, awaits
`destroy()` when the validation failed with message exactly
`session_not_connected`, and awaits neither driver call for any other
failed validation. -/
theorem deleteSession_driver_call_amended (reg : Registry) (fsDirs : List String)
    (id : String) (v : ValidationResult) (c : Client) (p : Page)
    (h1 : lookupEntry reg id = some c) (h2 : c.pupPage = some p) :
    (v.success = true → (deleteSession reg fsDirs id v).calls = [DriverCall.logout]) ∧
    (v.success = false → v.message = "session_not_connected" →
      (deleteSession reg fsDirs id v).calls = [DriverCall.destroy]) ∧
    (v.success = false → v.message ≠ "session_not_connected" →
      (deleteSession reg fsDirs id v).calls = []) := by
  refine ⟨?_, ?_, ?_⟩
  · intro hs
    cases hl : c.logoutOutcome with
    | throws m => simp [deleteSession, h1, h2, hs, hl]
    | ok =>
      simp [deleteSession, h1, h2, hs, hl]
      split <;> rfl
  · intro hs hm
    cases hl : c.destroyOutcome with
    | throws m => simp [deleteSession, h1, h2, hs, hm, hl]
    | ok =>
      simp [deleteSession, h1, h2, hs, hm, hl]
      split <;> rfl
  · intro hs hm
    simp [deleteSession, h1, h2, hs, hm]
    split <;> rfl

/-- Witness for C5 exercising all three branches at concrete inputs. -/
theorem deleteSession_driver_call_amended_witness :
    (deleteSession
        [("x", ⟨0, some ⟨false⟩, GetStateOutcome.ok "CONNECTED", CallOutcome.ok, CallOutcome.ok⟩)]
        [dirName "x"] "x" ⟨true, "session_connected", some "CONNECTED"⟩).calls
      = [DriverCall.logout] ∧
    (deleteSession
        [("x", ⟨0, some ⟨false⟩, GetStateOutcome.ok "OPENING", CallOutcome.ok, CallOutcome.ok⟩)]
        [dirName "x"] "x" ⟨false, "session_not_connected", some "OPENING"⟩).calls
      = [DriverCall.destroy] ∧
    (deleteSession
        [("x", ⟨0, some ⟨false⟩, GetStateOutcome.ok "OPENING", CallOutcome.ok, CallOutcome.ok⟩)]
        [dirName "x"] "x" ⟨false, "odd failure", none⟩).calls
      = [] := by
  refine ⟨?_, ?_, ?_⟩
  · exact (deleteSession_driver_call_amended _ _ "x" _
      ⟨0, some ⟨false⟩, GetStateOutcome.ok "CONNECTED", CallOutcome.ok, CallOutcome.ok⟩
      ⟨false⟩ (by decide) rfl).1 rfl
  · exact (deleteSession_driver_call_amended _ _ "x" _
      ⟨0, some ⟨false⟩, GetStateOutcome.ok "OPENING", CallOutcome.ok, CallOutcome.ok⟩
      ⟨false⟩ (by decide) rfl).2.1 rfl rfl
  · exact (deleteSession_driver_call_amended _ _ "x" _
      ⟨0, some ⟨false⟩, GetStateOutcome.ok "OPENING", CallOutcome.ok, CallOutcome.ok⟩
      ⟨false⟩ (by decide) rfl).2.2 rfl (by decide)

/-- C1 counterexample: a credential directory for an id with no Registry
entry (the prior validation reported `session_not_found`): `deleteSession`
returns without throwing, yet the directory is still present. -/
theorem deleteSession_missing_entry_keeps_folder :
    (deleteSession [] [dirName "x"] "x" ⟨false, "session_not_found", none⟩).err = none ∧
    (deleteSession [] [dirName "x"] "x" ⟨false, "session_not_found", none⟩).fsDirs
      = [dirName "x"] := by
  decide

/-- C1 amended: when the Registry has an entry for the id and that entry
has a materialised page, `deleteSession` returning without throwing
implies the credential directory is absent and the Registry entry is
removed, regardless of the validation outcome; when the entry is absent or
its page has not materialised, `deleteSession` returns without throwing
and leaves the Registry and the directory listing unchanged. -/
theorem deleteSession_terminate_amended (reg : Registry) (fsDirs : List String)
    (id : String) (v : ValidationResult) :
    (∀ c p, lookupEntry reg id = some c → c.pupPage = some p →
      (deleteSession reg fsDirs id v).err = none →
      lookupEntry (deleteSession reg fsDirs id v).registry id = none ∧
      dirName id ∉ (deleteSession reg fsDirs id v).fsDirs) ∧
    (lookupEntry reg id = none →
      deleteSession reg fsDirs id v = ⟨none, reg, fsDirs, []⟩) ∧
    (∀ c, lookupEntry reg id = some c → c.pupPage = none →
      deleteSession reg fsDirs id v = ⟨none, reg, fsDirs, []⟩) := by
  refine ⟨?_, ?_, ?_⟩
  · intro c p h1 h2 herr
    by_cases hs : v.success = true
    · cases hl : c.logoutOutcome with
      | throws m => simp [deleteSession, h1, h2, hs, hl] at herr
      | ok =>
        by_cases hdir : dirName id ∈ fsDirs
        · simp [deleteSession, h1, h2, hs, hl, hdir, lookupEntry_eraseEntry_self,
            List.mem_filter]
        · simp [deleteSession, h1, h2, hs, hl, hdir] at herr
    · by_cases hm : v.message = "session_not_connected"
      · cases hl : c.destroyOutcome with
        | throws m => simp [deleteSession, h1, h2, hs, hm, hl] at herr
        | ok =>
          by_cases hdir : dirName id ∈ fsDirs
          · simp [deleteSession, h1, h2, hs, hm, hl, hdir, lookupEntry_eraseEntry_self,
              List.mem_filter]
          · simp [deleteSession, h1, h2, hs, hm, hl, hdir] at herr
      · by_cases hdir : dirName id ∈ fsDirs
        · simp [deleteSession, h1, h2, hs, hm, hdir, lookupEntry_eraseEntry_self,
            List.mem_filter]
        · simp [deleteSession, h1, h2, hs, hm, hdir] at herr
  · intro h
    simp only [deleteSession, h]
  · intro c h1 h2
    simp only [deleteSession, h1, h2]


/-- Witness for C1 on a concrete state: entry with a materialised page,
non-connected validation; the call returns without error, the directory is
gone and the entry removed. -/
theorem deleteSession_terminate_amended_witness :
    (deleteSession
        [("x", ⟨0, some ⟨false⟩, GetStateOutcome.ok "OPENING", CallOutcome.ok, CallOutcome.ok⟩)]
        [dirName "x"] "x" ⟨false, "session_not_connected", some "OPENING"⟩).err = none ∧
    lookupEntry
      (deleteSession
        [("x", ⟨0, some ⟨false⟩, GetStateOutcome.ok "OPENING", CallOutcome.ok, CallOutcome.ok⟩)]
        [dirName "x"] "x" ⟨false, "session_not_connected", some "OPENING"⟩).registry "x" = none ∧
    dirName "x" ∉
      (deleteSession
        [("x", ⟨0, some ⟨false⟩, GetStateOutcome.ok "OPENING", CallOutcome.ok, CallOutcome.ok⟩)]
        [dirName "x"] "x" ⟨false, "session_not_connected", some "OPENING"⟩).fsDirs := by
  refine ⟨by decide, ?_⟩
  have h := (deleteSession_terminate_amended
      [("x", ⟨0, some ⟨false⟩, GetStateOutcome.ok "OPENING", CallOutcome.ok, CallOutcome.ok⟩)]
      [dirName "x"] "x" ⟨false, "session_not_connected", some "OPENING"⟩).1
      ⟨0, some ⟨false⟩, GetStateOutcome.ok "OPENING", CallOutcome.ok, CallOutcome.ok⟩
      ⟨false⟩ (by decide) rfl (by decide)
  exact h

/-- C7 counterexample: with `qr` on the deny-list at session start, the
`qr` listener is nevertheless attached (the gate for `qr` is consulted
inside the handler, per occurrence, not at subscription time). -/
theorem qr_listener_attached_when_denied :
    "qr" ∈ (["qr"] : List String) ∧ listenerAttached ["qr"] "qr" = true := by
  decide

/-- C7 amended: for a deny-listed event name, every gated event other than
`qr` gets no listener attached at session start, and no webhook is ever
dispatched for a deny-listed event (for `qr` because the per-occurrence
gate check never resolves against the process-constant deny-list). -/
theorem event_gate_amended (deny : List String) (e : String) (hd : e ∈ deny) :
    (e ≠ "qr" → listenerAttached deny e = false) ∧
    webhookDispatched deny deny e = false := by
  constructor
  · intro hne
    simp [listenerAttached, checkIfEventisEnabled, hne, hd]
  · by_cases hq : e = "qr"
    · subst hq
      simp [webhookDispatched, checkIfEventisEnabled, hd]
    · simp [webhookDispatched, listenerAttached, checkIfEventisEnabled, hq, hd]

/-- Witness for C7 with the `message` event deny-listed. -/
theorem event_gate_amended_witness :
    "message" ∈ (["message"] : List String) ∧
    listenerAttached ["message"] "message" = false ∧
    webhookDispatched ["message"] ["message"] "message" = false := by
  refine ⟨by decide, ?_, ?_⟩
  · exact (event_gate_amended ["message"] "message" (by decide)).1 (by decide)
  · exact (event_gate_amended ["message"] "message" (by decide)).2

/-- C8 counterexample: when both the `close` and the `error` one-shot
listeners fire for the same page crash, the recovery task runs twice —
not exactly once as claimed (neither listener detaches the other). -/
theorem crash_double_restart :
    crashRestartCount true true true true = 2 := by
  decide

theorem restartSession_eq (reg : Registry) (nh : Nat) (id : String) :
    restartSession reg nh id = ((id, freshClient nh) :: eraseEntry reg id, nh + 1) := by
  simp [restartSession, setupSession, lookupEntry_eraseEntry_self]

theorem applyRestarts_lookup (id : String) :
    ∀ (n : Nat) (reg : Registry) (nh : Nat),
      lookupEntry (applyRestarts (n + 1) reg nh id).1 id = some (freshClient (nh + n)) := by
  intro n
  induction n with
  | zero =>
    intro reg nh
    simp [applyRestarts, restartSession_eq, lookupEntry]
  | succ m ih =>
    intro reg nh
    have hstep : applyRestarts (m + 1 + 1) reg nh id
        = applyRestarts (m + 1) ((id, freshClient nh) :: eraseEntry reg id) (nh + 1) id := by
      simp [applyRestarts, restartSession_eq]
    have hn : nh + 1 + m = nh + (m + 1) := by omega
    rw [hstep, ih, hn]

/-- C8 amended: each fired one-shot listener triggers its own run of the
recovery task, so a crash firing both `close` and `error` restarts twice
(and one signal restarts once); after any positive number of restarts the
Registry holds, under the same tenant id, a client handle distinct from
the crashed one. -/
theorem crash_recovery_restart_amended (reg : Registry) (nh : Nat) (id : String)
    (c0 : Client) (closeFired errorFired : Bool)
    (h0 : lookupEntry reg id = some c0) (hh : c0.handle < nh)
    (hf : (closeFired || errorFired) = true) :
    0 < crashRestartCount true true closeFired errorFired ∧
    crashRestartCount true true closeFired errorFired ≤ 2 ∧
    ∃ c1, lookupEntry
        (applyRestarts (crashRestartCount true true closeFired errorFired) reg nh id).1 id
        = some c1 ∧ c1.handle ≠ c0.handle := by
  have hcount : 0 < crashRestartCount true true closeFired errorFired ∧
      crashRestartCount true true closeFired errorFired ≤ 2 := by
    cases closeFired <;> cases errorFired <;> simp_all [crashRestartCount]
  refine ⟨hcount.1, hcount.2, ?_⟩
  obtain ⟨m, hm⟩ : ∃ m, crashRestartCount true true closeFired errorFired = m + 1 :=
    ⟨crashRestartCount true true closeFired errorFired - 1, by omega⟩
  rw [hm]
  refine ⟨freshClient (nh + m), applyRestarts_lookup id m reg nh, ?_⟩
  simp only [freshClient]
  intro hcon
  omega

/-- Witness for C8: one registered client with handle 0, both crash
signals fired. -/
theorem crash_recovery_restart_amended_witness :
    lookupEntry [("x", freshClient 0)] "x" = some (freshClient 0) ∧
    (freshClient 0).handle < 1 ∧
    ∃ c1, lookupEntry
        (applyRestarts (crashRestartCount true true true true) [("x", freshClient 0)] 1 "x").1 "x"
        = some c1 ∧ c1.handle ≠ (freshClient 0).handle := by
  exact ⟨by decide, by decide,
    (crash_recovery_restart_amended [("x", freshClient 0)] 1 "x" (freshClient 0) true true
      (by decide) (by decide) rfl).2.2⟩


theorem deleteSession_state_cases (reg : Registry) (fsDirs : List String)
    (sid : String) (v : ValidationResult) :
    ((deleteSession reg fsDirs sid v).registry = reg ∧
      (deleteSession reg fsDirs sid v).fsDirs = fsDirs) ∨
    ((deleteSession reg fsDirs sid v).registry = eraseEntry reg sid ∧
      (deleteSession reg fsDirs sid v).fsDirs
        = fsDirs.filter (fun d => d ≠ dirName sid)) := by
  unfold deleteSession
  repeat' split
  all_goals first
    | exact Or.inl ⟨rfl, rfl⟩
    | exact Or.inr ⟨rfl, rfl⟩

theorem deleteSession_registry_other (reg : Registry) (fsDirs : List String)
    (sid : String) (v : ValidationResult) (k : String) (hk : k ≠ sid) :
    lookupEntry (deleteSession reg fsDirs sid v).registry k = lookupEntry reg k := by
  rcases deleteSession_state_cases reg fsDirs sid v with ⟨hr, _⟩ | ⟨hr, _⟩
  · rw [hr]
  · rw [hr, lookupEntry_eraseEntry_ne reg sid k hk]

theorem deleteSession_fsDirs_other (reg : Registry) (fsDirs : List String)
    (sid : String) (v : ValidationResult) (d : String)
    (hd : d ∈ fsDirs) (hne : d ≠ dirName sid) :
    d ∈ (deleteSession reg fsDirs sid v).fsDirs := by
  rcases deleteSession_state_cases reg fsDirs sid v with ⟨_, hf⟩ | ⟨_, hf⟩
  · rw [hf]; exact hd
  · rw [hf]
    exact List.mem_filter.mpr ⟨hd, by simp [hne]⟩

theorem flushStep_keep_active (st : FlushState) (f id : String) (c : Client)
    (h1 : lookupEntry st.registry id = some c)
    (h2 : (validateClient (some c)).success = true)
    (h3 : dirName id ∈ st.fsDirs) (h4 : id ∉ st.termCalls) :
    lookupEntry (flushStep true st f).registry id = some c ∧
    dirName id ∈ (flushStep true st f).fsDirs ∧
    id ∉ (flushStep true st f).termCalls := by
  cases hp : parseSessionDir f with
  | none =>
    simp only [flushStep, hp]
    exact ⟨h1, h3, h4⟩
  | some sid =>
    by_cases hid : sid = id
    · subst hid
      simp only [flushStep, hp, validateSession, h1, h2]
      simp only [not_true, or_self, if_false]
      exact ⟨h1, h3, h4⟩
    · simp only [flushStep, hp]
      split
      · refine ⟨?_, ?_, ?_⟩
        · rw [deleteSession_registry_other _ _ _ _ _ (fun h => hid h.symm)]
          exact h1
        · exact deleteSession_fsDirs_other _ _ _ _ _ h3
            (fun h => hid (dirName_inj h).symm)
        · intro hmem
          rcases List.mem_append.mp hmem with hmem | hmem
          · exact h4 hmem
          · exact hid (List.mem_singleton.mp hmem).symm
      · exact ⟨h1, h3, h4⟩

theorem flushFold_keep_active (files : List String) (st : FlushState) (id : String)
    (c : Client) (h1 : lookupEntry st.registry id = some c)
    (h2 : (validateClient (some c)).success = true)
    (h3 : dirName id ∈ st.fsDirs) (h4 : id ∉ st.termCalls) :
    lookupEntry (files.foldl (flushStep true) st).registry id = some c ∧
    dirName id ∈ (files.foldl (flushStep true) st).fsDirs ∧
    id ∉ (files.foldl (flushStep true) st).termCalls := by
  induction files generalizing st with
  | nil => exact ⟨h1, h3, h4⟩
  | cons f t ih =>
    obtain ⟨a, b, cc⟩ := flushStep_keep_active st f id c h1 h2 h3 h4
    exact ih (flushStep true st f) a b cc

theorem flushStep_missing_entry (st : FlushState) (f id : String)
    (h1 : lookupEntry st.registry id = none) (h3 : dirName id ∈ st.fsDirs) :
    lookupEntry (flushStep false st f).registry id = none ∧
    dirName id ∈ (flushStep false st f).fsDirs := by
  cases hp : parseSessionDir f with
  | none =>
    simp only [flushStep, hp]
    exact ⟨h1, h3⟩
  | some sid =>
    simp only [flushStep, hp]
    split
    · by_cases hid : sid = id
      · subst hid
        have hd : deleteSession st.registry st.fsDirs sid (validateSession st.registry sid)
            = ⟨none, st.registry, st.fsDirs, []⟩ := by
          simp [deleteSession, h1]
        rw [hd]
        exact ⟨h1, h3⟩
      · constructor
        · rw [deleteSession_registry_other _ _ _ _ _ (fun h => hid h.symm)]
          exact h1
        · exact deleteSession_fsDirs_other _ _ _ _ _ h3
            (fun h => hid (dirName_inj h).symm)
    · exact ⟨h1, h3⟩

theorem flushFold_missing_entry (files : List String) (st : FlushState) (id : String)
    (h1 : lookupEntry st.registry id = none) (h3 : dirName id ∈ st.fsDirs) :
    lookupEntry (files.foldl (flushStep false) st).registry id = none ∧
    dirName id ∈ (files.foldl (flushStep false) st).fsDirs := by
  induction files generalizing st with
  | nil => exact ⟨h1, h3⟩
  | cons f t ih =>
    obtain ⟨a, b⟩ := flushStep_missing_entry st f id h1 h3
    exact ih (flushStep false st f) a b

theorem flushStep_termCalls_mono (doi : Bool) (st : FlushState) (f id : String)
    (h : id ∈ st.termCalls) : id ∈ (flushStep doi st f).termCalls := by
  cases hp : parseSessionDir f with
  | none => simpa only [flushStep, hp] using h
  | some sid =>
    simp only [flushStep, hp]
    split
    · exact List.mem_append.mpr (Or.inl h)
    · exact h

theorem flushFold_termCalls_mono (doi : Bool) (files : List String) (st : FlushState)
    (id : String) (h : id ∈ st.termCalls) :
    id ∈ (files.foldl (flushStep doi) st).termCalls := by
  induction files generalizing st with
  | nil => exact h
  | cons f t ih => exact ih _ (flushStep_termCalls_mono doi st f id h)

theorem flushFold_discovers (files : List String) (st : FlushState) (f id : String)
    (hf : f ∈ files) (hp : parseSessionDir f = some id) :
    id ∈ (files.foldl (flushStep false) st).termCalls := by
  induction files generalizing st with
  | nil => cases hf
  | cons g t ih =>
    rw [List.foldl_cons]
    rcases List.mem_cons.mp hf with hg | hg
    · subst hg
      apply flushFold_termCalls_mono
      simp only [flushStep, hp]
      simp
    · exact ih (flushStep false st g) hg

/-- C2 counterexample: `flush(false)` does not delete every discovered
tenant directory — a directory whose tenant has no Registry entry (its
validation reports `session_not_found`) survives, because `deleteSession`
early-returns before reaching the folder deletion. -/
theorem flushSessions_false_leaves_orphan_dir :
    (flushSessions [] [dirName "x"] false).fsDirs = [dirName "x"] := by
  decide

/-- C2 amended: `flush(true)` never calls terminate for, and never
deletes the directory of, a tenant whose validation reports success;
`flush(false)` invokes terminate for every discovered tenant, but
actually deletes a directory only when the tenant has a Registry entry
whose page handle is present — in particular a tenant with no Registry
entry keeps its directory. -/
theorem flushSessions_amended (reg : Registry) (fsDirs : List String) (id : String) :
    (∀ c, lookupEntry reg id = some c →
      (validateSession reg id).success = true → dirName id ∈ fsDirs →
      dirName id ∈ (flushSessions reg fsDirs true).fsDirs ∧
      id ∉ (flushSessions reg fsDirs true).termCalls) ∧
    (∀ f, f ∈ fsDirs → parseSessionDir f = some id →
      id ∈ (flushSessions reg fsDirs false).termCalls) ∧
    (lookupEntry reg id = none → dirName id ∈ fsDirs →
      dirName id ∈ (flushSessions reg fsDirs false).fsDirs) := by
  refine ⟨?_, ?_, ?_⟩
  · intro c h1 h2 h3
    have h2c : (validateClient (some c)).success = true := by
      rw [validateSession] at h2
      rwa [h1] at h2
    have := flushFold_keep_active fsDirs ⟨reg, fsDirs, []⟩ id c h1 h2c h3
      (by simp)
    exact ⟨this.2.1, this.2.2⟩
  · intro f hf hp
    exact flushFold_discovers fsDirs ⟨reg, fsDirs, []⟩ f id hf hp
  · intro h1 h3
    exact (flushFold_missing_entry fsDirs ⟨reg, fsDirs, []⟩ id h1 h3).2

/-- Witness for C2: tenant `a` is registered and validates connected,
tenant `b` has a directory but no Registry entry. -/
theorem flushSessions_amended_witness :
    (validateSession
      [("a", ⟨0, some ⟨false⟩, GetStateOutcome.ok "CONNECTED", CallOutcome.ok, CallOutcome.ok⟩)]
      "a").success = true ∧
    dirName "a" ∈ (flushSessions
      [("a", ⟨0, some ⟨false⟩, GetStateOutcome.ok "CONNECTED", CallOutcome.ok, CallOutcome.ok⟩)]
      [dirName "a", dirName "b"] true).fsDirs ∧
    "a" ∉ (flushSessions
      [("a", ⟨0, some ⟨false⟩, GetStateOutcome.ok "CONNECTED", CallOutcome.ok, CallOutcome.ok⟩)]
      [dirName "a", dirName "b"] true).termCalls ∧
    "b" ∈ (flushSessions
      [("a", ⟨0, some ⟨false⟩, GetStateOutcome.ok "CONNECTED", CallOutcome.ok, CallOutcome.ok⟩)]
      [dirName "a", dirName "b"] false).termCalls ∧
    dirName "b" ∈ (flushSessions
      [("a", ⟨0, some ⟨false⟩, GetStateOutcome.ok "CONNECTED", CallOutcome.ok, CallOutcome.ok⟩)]
      [dirName "a", dirName "b"] false).fsDirs := by
  refine ⟨by decide, ?_, ?_, ?_, ?_⟩
  · exact ((flushSessions_amended _ _ "a").1
      ⟨0, some ⟨false⟩, GetStateOutcome.ok "CONNECTED", CallOutcome.ok, CallOutcome.ok⟩
      (by decide) (by decide) (by decide)).1
  · exact ((flushSessions_amended _ _ "a").1
      ⟨0, some ⟨false⟩, GetStateOutcome.ok "CONNECTED", CallOutcome.ok, CallOutcome.ok⟩
      (by decide) (by decide) (by decide)).2
  · exact (flushSessions_amended _ _ "b").2.1 (dirName "b") (by decide) (by decide)
  · exact (flushSessions_amended _ _ "b").2.2 (by decide) (by decide)

end WA
